import Mathlib

/-!
Shallow embedding of `src/token_provider/token_provider.go` (package
`token_provider` of aad-auth-proxy) and verification of its specification.

Modelling conventions:
* Timestamps and Go `time.Duration` values are unbounded integers counting
  nanoseconds (Go's `time.Duration` unit).  64-bit wraparound is not modelled:
  all properties below concern the branching arithmetic at realistic
  magnitudes, far from the `int64` boundary.
* Go integer division truncates toward zero, which is `Int.tdiv`.
* `time.Now()` becomes an explicit `now` argument (single instant per call),
  and the receiver field `userConfiguredDurationPercentage` becomes an
  explicit argument of `getRefreshDuration`.
* Go `error` values are modelled by their message string; `nil` error is
  `none`.
* The external collaborators (credential client, logger, telemetry, context)
  are modelled at their interface boundary: the outcome of a
  `credentialClient.GetToken` call is an input of type
  `Except Err AccessToken`, the outcome of `azidentity.NewDefaultAzureCredential`
  is an input of type `Except Err Unit`, a logger is present or absent
  (`Option Unit`), and telemetry emission has no effect on provider state.
-/

namespace AadAuthProxy

/-- Go `error` values, modelled by their message string. -/
abbrev Err := String

/-- Nanoseconds per second: the unit conversion behind `time.Second`. -/
def nsPerSecond : Int := 1000000000

/-- Modelled from the spec: `constants.TIME_1_MINUTES` (the `constants`
package is not under `src/`).  Section 4.1 of the spec calls it "1 minute"
(the fast-retry fallback), i.e. 60 seconds in nanoseconds. -/
def TIME_1_MINUTES : Int := 60 * nsPerSecond

/-- Modelled from the spec: `constants.TIME_5_MINUTES` (the `constants`
package is not under `src/`).  Section 4.3 of the spec calls it "a fixed
fallback value (5 minutes)", i.e. 300 seconds in nanoseconds. -/
def TIME_5_MINUTES : Int := 300 * nsPerSecond

/-- `azcore.AccessToken`: the value returned by the credential client. -/
structure AccessToken where
  Token : String
  ExpiresOn : Int
deriving Repr, DecidableEq

/-- `policy.TokenRequestOptions` (only the `Scopes` field is used). -/
structure TokenRequestOptions where
  Scopes : List String
deriving Repr, DecidableEq

/-- The `tokenProvider` struct (token_provider.go lines 20-28).  The
`ctx` and `credentialClient` handles are external collaborators and are
modelled at the call sites instead of being stored. -/
structure tokenProvider where
  token : String
  lastError : Option Err
  userConfiguredDurationPercentage : Nat
  refreshDuration : Int
  options : TokenRequestOptions
deriving Repr, DecidableEq

/-- `GetAccessToken` (lines 61-63): returns the current token and last error. -/
def GetAccessToken (s : tokenProvider) : String × Option Err :=
  (s.token, s.lastError)

/-- The local `userConfiguredTimeFromNow` of `getRefreshDuration` (line 142):
`now + Duration(100-percentage) * (ExpiresOn - now) / 100`.
Go divides `int64` values truncating toward zero, hence `Int.tdiv`.
The Go subtraction `100 - percentage` is `uint8` arithmetic, which agrees
with the integer subtraction written here for every `percentage ≤ 100`
(all claims range over percentages in `[0,100]`). -/
def userConfiguredTimeFromNow (now ExpiresOn : Int) (percentage : Nat) : Int :=
  now + ((100 - (percentage : Int)) * (ExpiresOn - now)).tdiv 100

/-- `getRefreshDuration` (lines 140-156): the refresh-time calculator.
Returns the absolute timestamp of the next refresh given `now`, the token's
absolute expiry `ExpiresOn`, and the configured percentage. -/
def getRefreshDuration (now ExpiresOn : Int) (percentage : Nat) : Int :=
  let tokenExpiryTimestamp := ExpiresOn
  let thresholdTimestamp := now - 10 * nsPerSecond
  if userConfiguredTimeFromNow now ExpiresOn percentage < thresholdTimestamp then
    now + TIME_1_MINUTES
  else if userConfiguredTimeFromNow now ExpiresOn percentage < tokenExpiryTimestamp then
    userConfiguredTimeFromNow now ExpiresOn percentage
  else
    now + TIME_1_MINUTES

/-- `nextRefresh` as worded by the spec, section 4.1 (for the refinement
claim C1 only; every other theorem is about `getRefreshDuration`):
`remaining = expiresAt - now`; `candidate = now + remaining * (100 - percentage) / 100`;
`threshold = now - 10 seconds`; if `candidate` is earlier than `threshold`
return `now + 1 minute`, else if `candidate` is earlier than `expiresAt`
return `candidate`, else return `now + 1 minute`. -/
def nextRefreshSpec (now expiresAt : Int) (percentage : Nat) : Int :=
  let remaining := expiresAt - now
  let candidate := now + (remaining * (100 - (percentage : Int))).tdiv 100
  let threshold := now - 10 * nsPerSecond
  if candidate < threshold then now + TIME_1_MINUTES
  else if candidate < expiresAt then candidate
  else now + TIME_1_MINUTES

/-- `setToken` (lines 128-132): stores the token string.  The round trip
through a fresh local `atomic.Value` is the identity on the stored string. -/
def setToken (s : tokenProvider) (token : String) : tokenProvider :=
  { s with token := token }

/-- `updateRefreshDuration` (lines 134-138): stores
`getRefreshDuration(accessToken).Sub(now)` in `refreshDuration`. -/
def updateRefreshDuration (s : tokenProvider) (now : Int) (accessToken : AccessToken) :
    tokenProvider :=
  { s with refreshDuration :=
      getRefreshDuration now accessToken.ExpiresOn s.userConfiguredDurationPercentage - now }

/-- `refreshAADToken` (lines 65-108).  The outcome of the credential
client's `GetToken` call is the input `fetchResult`; telemetry spans and
counters do not touch provider state.  On fetch failure only `lastError` is
written and the error is returned; on success `lastError` is cleared, the
token stored via `setToken`, and the refresh duration recomputed via
`updateRefreshDuration`. -/
def refreshAADToken (s : tokenProvider) (now : Int) (fetchResult : Except Err AccessToken) :
    tokenProvider × Option Err :=
  match fetchResult with
  | .error err => ({ s with lastError := some err }, some err)
  | .ok accessToken =>
      let s1 := { s with lastError := none }
      let s2 := setToken s1 accessToken.Token
      let s3 := updateRefreshDuration s2 now accessToken
      (s3, none)

/-- `utils.IConfiguration` at its interface boundary: only
`GetAadTokenRefreshDurationInPercentage()` is consumed (line 35). -/
structure Config where
  GetAadTokenRefreshDurationInPercentage : Nat
deriving Repr, DecidableEq

/-- A provider together with the liveness of its background goroutine
(`periodicallyRefreshClientToken`): `loopRunning = false` models the
Terminated / cancelled loop states, after which the loop body never runs
again. -/
structure ProviderState where
  tp : tokenProvider
  loopRunning : Bool
deriving Repr, DecidableEq

/-- `NewTokenProvider` (lines 30-59).  Inputs beyond the Go parameters:
`credResult` is the outcome of `azidentity.NewDefaultAzureCredential`,
`now` the instant of the mandatory initial refresh and `fetchResult` its
fetch outcome.  Returns the provider with a started background loop, or
the initialization error (in which case no provider and no loop exist). -/
def NewTokenProvider (audience : String) (config : Option Config) (logger : Option Unit)
    (credResult : Except Err Unit) (now : Int) (fetchResult : Except Err AccessToken) :
    Except Err ProviderState :=
  match config, logger with
  | none, _ => .error "NewTokenProvider: Required arguments canot be nil"
  | _, none => .error "NewTokenProvider: Required arguments canot be nil"
  | some config, some _ =>
      match credResult with
      | .error err => .error err
      | .ok _ =>
          let tp : tokenProvider :=
            { token := ""
              lastError := none
              userConfiguredDurationPercentage := config.GetAadTokenRefreshDurationInPercentage
              refreshDuration := 0
              options := { Scopes := [audience] } }
          match refreshAADToken tp now fetchResult with
          | (_, some err) => .error ("Failed to get access token: " ++ err)
          | (tp1, none) => .ok { tp := tp1, loopRunning := true }

/-- One observable event of the background loop `periodicallyRefreshClientToken`
(lines 110-126): either the context is cancelled, or the timer fires and a
refresh is attempted whose fetch outcome is `fetchResult`. -/
inductive LoopEvent where
  | ctxDone : LoopEvent
  | timerFired (now : Int) (fetchResult : Except Err AccessToken) : LoopEvent
deriving Repr

/-- One iteration of `periodicallyRefreshClientToken` (lines 113-125).
With the loop terminated nothing changes.  On cancellation the loop returns
nil and exits.  On a timer tick `refreshAADToken` runs; on its failure the
loop writes the 5-minute fallback into `refreshDuration` and returns the
error (exiting — no retry), on success it loops. -/
def periodicallyRefreshClientTokenStep (p : ProviderState) (ev : LoopEvent) : ProviderState :=
  if p.loopRunning then
    match ev with
    | .ctxDone => { p with loopRunning := false }
    | .timerFired now fetchResult =>
        match refreshAADToken p.tp now fetchResult with
        | (tp1, none) => { p with tp := tp1 }
        | (tp1, some _) =>
            { tp := { tp1 with refreshDuration := TIME_5_MINUTES }, loopRunning := false }
  else p

/-- Iterated loop behaviour over a sequence of events. -/
def runEvents (p : ProviderState) (evs : List LoopEvent) : ProviderState :=
  evs.foldl periodicallyRefreshClientTokenStep p

/-! ### Helper lemmas -/

/-- A terminated loop never changes the provider state again. -/
theorem runEvents_of_not_running (p : ProviderState) (h : p.loopRunning = false)
    (evs : List LoopEvent) : runEvents p evs = p := by
  induction evs with
  | nil => rfl
  | cons ev evs ih =>
      have hstep : periodicallyRefreshClientTokenStep p ev = p := by
        unfold periodicallyRefreshClientTokenStep
        rw [h]
        simp
      show runEvents (periodicallyRefreshClientTokenStep p ev) evs = p
      rw [hstep, ih]

/-- Truncating division bound: for `0 ≤ q ≤ 100` and `0 ≤ r`,
`(q * r).tdiv 100 ≤ r`. -/
theorem tdiv_mul_le (q r : Int) (hq0 : 0 ≤ q) (hq100 : q ≤ 100) (hr : 0 ≤ r) :
    (q * r).tdiv 100 ≤ r := by
  rw [Int.tdiv_eq_ediv (mul_nonneg hq0 hr) (by norm_num)]
  calc q * r / 100 ≤ 100 * r / 100 :=
        Int.ediv_le_ediv (by norm_num) (mul_le_mul_of_nonneg_right hq100 hr)
    _ = r := Int.mul_ediv_cancel_left r (by norm_num)

/-- Truncating division bound: for `0 ≤ q ≤ 100` and `r ≤ 0`,
`r ≤ (q * r).tdiv 100`. -/
theorem le_tdiv_mul (q r : Int) (hq0 : 0 ≤ q) (hq100 : q ≤ 100) (hr : r ≤ 0) :
    r ≤ (q * r).tdiv 100 := by
  have hrw : q * r = -(q * (-r)) := by ring
  rw [hrw, Int.neg_tdiv]
  have hb := tdiv_mul_le q (-r) hq0 hq100 (by linarith)
  linarith

/-- The percentage weight in `getRefreshDuration` is nonnegative for
percentages up to 100. -/
theorem weight_nonneg (p : Fin 101) : (0 : Int) ≤ 100 - ((p : Nat) : Int) := by
  have hp : (p : Nat) ≤ 100 := Nat.lt_succ_iff.mp p.isLt
  have : ((p : Nat) : Int) ≤ 100 := by exact_mod_cast hp
  linarith

/-- The percentage weight in `getRefreshDuration` is at most 100. -/
theorem weight_le (p : Fin 101) : (100 : Int) - ((p : Nat) : Int) ≤ 100 := by
  have : (0 : Int) ≤ ((p : Nat) : Int) := Int.natCast_nonneg _
  linarith

/-! ### Claims -/

/-- C1: for every `now`, absolute expiry `expiresAt`, and percentage in
`[0,100]`, `getRefreshDuration` returns exactly the timestamp of the
three-branch algorithm of spec section 4.1 with
`candidate = now + (expiresAt - now) * (100 - percentage) / 100` and
`threshold = now - 10 seconds`: `now + 1 minute` if the candidate is
earlier than the threshold, otherwise the candidate if it is earlier than
`expiresAt`, otherwise `now + 1 minute`. -/
theorem C1_matches_spec_algorithm (now expiresAt : Int) (p : Fin 101) :
    getRefreshDuration now expiresAt (p : Nat) = nextRefreshSpec now expiresAt (p : Nat) := by
  simp only [getRefreshDuration, nextRefreshSpec, userConfiguredTimeFromNow]
  rw [Int.mul_comm]

/-- C2 (code_bug evidence): at `now = 0`, `ExpiresOn = 10` seconds and
`percentage = 50` — a token expiring exactly 10 seconds from now — the code
returns the candidate `now + 5` seconds, not the `now + 1 minute` that the
claim (and the comment above the threshold check in `getRefreshDuration`)
requires. -/
theorem C2_code_eval_at_failing_input :
    getRefreshDuration 0 (10 * nsPerSecond) 50 = 5 * nsPerSecond ∧
    getRefreshDuration 0 (10 * nsPerSecond) 50 ≠ 0 + TIME_1_MINUTES := by
  constructor
  · decide
  · decide

/-- C3 (counterexample): at `now = 0`, `expiresAt = 100` seconds (strictly
later than `now`) and `percentage = 100`, the candidate equals `now`, the
non-fallback branch returns it, and the result is neither strictly later
than `now` nor equal to `now + 1 minute`. -/
theorem C3_counterexample :
    getRefreshDuration 0 (100 * nsPerSecond) 100 = 0 ∧
    ¬ ((0 : Int) < getRefreshDuration 0 (100 * nsPerSecond) 100) ∧
    getRefreshDuration 0 (100 * nsPerSecond) 100 ≠ 0 + TIME_1_MINUTES := by
  refine ⟨by decide, by decide, by decide⟩

/-- C3 (amended): for every `now`, every `expiresAt` strictly later than
`now`, and every percentage in `[0,100]`, `getRefreshDuration` returns a
timestamp no earlier than `now` (the delay is never negative, though it can
be zero, e.g. at `percentage = 100`); the candidate-below-threshold fallback
is unreachable, and the result is the candidate when the candidate is
earlier than `expiresAt` and exactly `now + 1 minute` otherwise. -/
theorem C3_amended_nonnegative_delay (now expiresAt : Int) (p : Fin 101)
    (h : now < expiresAt) :
    now ≤ getRefreshDuration now expiresAt (p : Nat) ∧
    getRefreshDuration now expiresAt (p : Nat) =
      (if userConfiguredTimeFromNow now expiresAt (p : Nat) < expiresAt
       then userConfiguredTimeFromNow now expiresAt (p : Nat)
       else now + TIME_1_MINUTES) := by
  have hq0 := weight_nonneg p
  have hdiv : (0 : Int) ≤ ((100 - ((p : Nat) : Int)) * (expiresAt - now)).tdiv 100 :=
    Int.tdiv_nonneg (mul_nonneg hq0 (by linarith)) (by norm_num)
  have hu : now ≤ userConfiguredTimeFromNow now expiresAt (p : Nat) := by
    unfold userConfiguredTimeFromNow
    linarith
  have hthr : ¬ (userConfiguredTimeFromNow now expiresAt (p : Nat) < now - 10 * nsPerSecond) := by
    have : (0 : Int) < 10 * nsPerSecond := by norm_num [nsPerSecond]
    push_neg
    linarith
  constructor
  · unfold getRefreshDuration
    rw [if_neg hthr]
    by_cases hc : userConfiguredTimeFromNow now expiresAt (p : Nat) < expiresAt
    · rw [if_pos hc]
      exact hu
    · rw [if_neg hc]
      have : (0 : Int) ≤ TIME_1_MINUTES := by norm_num [TIME_1_MINUTES, nsPerSecond]
      linarith
  · unfold getRefreshDuration
    rw [if_neg hthr]

/-- C3 witness: the spec's own worked example, `now = 0`,
`expiresAt = 100` minutes, `percentage = 80`. -/
theorem C3_amended_nonnegative_delay_witness :
    (0 : Int) < 6000000000000 ∧
    ((0 : Int) ≤ getRefreshDuration 0 6000000000000 80 ∧
     getRefreshDuration 0 6000000000000 80 =
       (if userConfiguredTimeFromNow 0 6000000000000 80 < 6000000000000
        then userConfiguredTimeFromNow 0 6000000000000 80
        else 0 + TIME_1_MINUTES)) :=
  ⟨by decide, C3_amended_nonnegative_delay 0 6000000000000 ⟨80, by decide⟩ (by decide)⟩

/-- C4: when a background refresh attempt fails, the loop stores the error,
writes the fixed 5-minute fallback into `refreshDuration`, and terminates;
from then on no event whatsoever changes the provider state, and
`GetAccessToken` keeps returning the previously stored token together with
that error. -/
theorem C4_failure_terminates_loop (tp : tokenProvider) (now : Int) (e : Err)
    (evs : List LoopEvent) :
    (periodicallyRefreshClientTokenStep ⟨tp, true⟩ (.timerFired now (.error e))).tp.lastError
        = some e ∧
    (periodicallyRefreshClientTokenStep ⟨tp, true⟩ (.timerFired now (.error e))).tp.refreshDuration
        = TIME_5_MINUTES ∧
    (periodicallyRefreshClientTokenStep ⟨tp, true⟩ (.timerFired now (.error e))).loopRunning
        = false ∧
    runEvents (periodicallyRefreshClientTokenStep ⟨tp, true⟩ (.timerFired now (.error e))) evs
        = periodicallyRefreshClientTokenStep ⟨tp, true⟩ (.timerFired now (.error e)) ∧
    GetAccessToken
        (runEvents (periodicallyRefreshClientTokenStep ⟨tp, true⟩ (.timerFired now (.error e)))
          evs).tp
        = (tp.token, some e) := by
  refine ⟨rfl, rfl, rfl, runEvents_of_not_running _ rfl evs, ?_⟩
  rw [runEvents_of_not_running _ rfl evs]
  rfl

/-- C5: after a failed refresh attempt, `GetAccessToken` returns the
previously stored token paired with the new non-nil error; the token field
is not replaced on failure; the error stays across further failed refreshes
(always the latest one) and becomes nil again exactly on the next
successful refresh. -/
theorem C5_failure_keeps_token_until_success (s : tokenProvider) (now : Int) (e : Err) :
    GetAccessToken (refreshAADToken s now (.error e)).1 = (s.token, some e) ∧
    (refreshAADToken s now (.error e)).1.token = s.token ∧
    (∀ (now2 : Int) (e2 : Err),
      (refreshAADToken (refreshAADToken s now (.error e)).1 now2 (.error e2)).1.lastError
        = some e2) ∧
    (∀ (now2 : Int) (a : AccessToken),
      (refreshAADToken (refreshAADToken s now (.error e)).1 now2 (.ok a)).1.lastError
        = none) :=
  ⟨rfl, rfl, fun _ _ => rfl, fun _ _ => rfl⟩

/-- C6: after any successful refresh — including the mandatory synchronous
initial refresh performed by `NewTokenProvider` — `GetAccessToken` returns
the newly fetched token string and a nil error. -/
theorem C6_success_returns_new_token (s : tokenProvider) (now : Int) (a : AccessToken)
    (audience : String) (c : Config) (now2 : Int) (a2 : AccessToken) :
    GetAccessToken (refreshAADToken s now (.ok a)).1 = (a.Token, none) ∧
    (refreshAADToken s now (.ok a)).2 = none ∧
    (NewTokenProvider audience (some c) (some ()) (.ok ()) now2 (.ok a2)).map
        (fun p => GetAccessToken p.tp) = .ok (a2.Token, none) :=
  ⟨rfl, rfl, rfl⟩

/-- C7 (counterexample): with an absent (empty) audience but a valid
configuration, logger, credential client and a successful initial fetch,
`NewTokenProvider` succeeds — the audience is never validated, so
construction does not fail "whenever the audience is absent". -/
theorem C7_counterexample :
    (NewTokenProvider "" (some { GetAadTokenRefreshDurationInPercentage := 50 })
      (some ()) (.ok ()) 0 (.ok { Token := "tok", ExpiresOn := 3600000000000 })).isOk
      = true := rfl

/-- C7 (amended): `NewTokenProvider` returns an initialization error and
creates no provider and no background task whenever the configuration or
the logger is absent (a configuration error), whenever the credential
client cannot be created, or whenever the mandatory initial token fetch
fails; the audience is not validated. -/
theorem C7_amended_construction_errors (audience : String) (config : Option Config)
    (logger : Option Unit) (credResult : Except Err Unit) (now : Int)
    (fetchResult : Except Err AccessToken) (c : Config) (e eF : Err) :
    NewTokenProvider audience none logger credResult now fetchResult
        = .error "NewTokenProvider: Required arguments canot be nil" ∧
    NewTokenProvider audience config none credResult now fetchResult
        = .error "NewTokenProvider: Required arguments canot be nil" ∧
    NewTokenProvider audience (some c) (some ()) (.error e) now fetchResult
        = .error e ∧
    NewTokenProvider audience (some c) (some ()) (.ok ()) now (.error eF)
        = .error ("Failed to get access token: " ++ eF) := by
  refine ⟨?_, ?_, rfl, rfl⟩
  · cases logger <;> rfl
  · cases config <;> rfl

/-- C10: a failed `refreshAADToken` call writes only `lastError`; the
token, the refresh duration, the configured percentage and the requested
scopes are all left exactly as they were. -/
theorem C10_failure_frame (s : tokenProvider) (now : Int) (e : Err) :
    (refreshAADToken s now (.error e)).1.token = s.token ∧
    (refreshAADToken s now (.error e)).1.refreshDuration = s.refreshDuration ∧
    (refreshAADToken s now (.error e)).1.userConfiguredDurationPercentage
        = s.userConfiguredDurationPercentage ∧
    (refreshAADToken s now (.error e)).1.options = s.options ∧
    (refreshAADToken s now (.error e)).1.lastError = some e :=
  ⟨rfl, rfl, rfl, rfl, rfl⟩

/-- C9: for every already-expired token (`expiresAt ≤ now`) and every
percentage in `[0,100]`, `getRefreshDuration` returns exactly
`now + 1 minute`: with non-positive remaining lifetime the candidate lands
at or after `expiresAt` (or below the `now - 10` seconds threshold), so the
branch returning the candidate is unreachable. -/
theorem C9_expired_token_one_minute (now expiresAt : Int) (p : Fin 101)
    (h : expiresAt ≤ now) :
    getRefreshDuration now expiresAt (p : Nat) = now + TIME_1_MINUTES := by
  have hq0 := weight_nonneg p
  have hq100 := weight_le p
  have hkey : expiresAt - now ≤ ((100 - ((p : Nat) : Int)) * (expiresAt - now)).tdiv 100 :=
    le_tdiv_mul _ _ hq0 hq100 (by linarith)
  have hnc : ¬ (userConfiguredTimeFromNow now expiresAt (p : Nat) < expiresAt) := by
    unfold userConfiguredTimeFromNow
    push_neg
    linarith
  unfold getRefreshDuration
  by_cases hthr : userConfiguredTimeFromNow now expiresAt (p : Nat) < now - 10 * nsPerSecond
  · rw [if_pos hthr]
  · rw [if_neg hthr, if_neg hnc]

/-- C9 witness: a token that expired 5 seconds ago, at percentage 50. -/
theorem C9_expired_token_one_minute_witness :
    (-5000000000 : Int) ≤ 0 ∧
    getRefreshDuration 0 (-5000000000) 50 = 0 + TIME_1_MINUTES :=
  ⟨by decide, C9_expired_token_one_minute 0 (-5000000000) ⟨50, by decide⟩ (by decide)⟩

end AadAuthProxy
